import Mathlib

/-!
# Verification of `kado/store/mixin.py`

A shallow embedding of the `HasData` and `HasMetadata` store mixins of the
kado project, together with proofs of the specified properties.

* Byte strings are modelled as `List Nat` (each element one byte value).
* Python values crossing dynamically-typed interfaces are modelled by the
  small inductive `PyVal`; raised exceptions by `PyError`.
* A mutating Python method that can raise is modelled as a function
  returning the (possibly updated) state paired with `Option PyError`;
  a raise happening before any field assignment returns the original state.
* The digest algorithms (`hashlib.blake2b` with fixed size/person and
  `xxhash.xxh64` with fixed seed) are external libraries; the hash object a
  container caches is characterised by the byte string fed to it, and the
  finalisation to a hexadecimal string is an arbitrary function parameter
  `sHex` / `wHex : List Nat → String`, so every theorem below holds for the
  real algorithms in particular.
-/

set_option autoImplicit false

namespace Kado

/-- The Python values that can reach the mixin interfaces in this module:
byte strings, integers, text strings, `None` and plain dictionaries
(modelled as insertion-ordered association lists). -/
inductive PyVal where
  | bytes (b : List Nat)
  | int (n : Int)
  | str (s : String)
  | pynone
  | dict (d : List (String × String))
  deriving DecidableEq, Repr

/-- The Python exceptions raised by the module. -/
inductive PyError where
  | typeError (msg : String)
  | valueError (msg : String)
  | keyError (k : String)
  deriving DecidableEq, Repr

/-- Whether an exception is a `TypeError`. -/
def PyError.isTypeError : PyError → Bool
  | .typeError _ => true
  | _ => false

/-- Whether an exception is a `ValueError`. -/
def PyError.isValueError : PyError → Bool
  | .valueError _ => true
  | _ => false

/-! ## `hmac.compare_digest`

`HasData.__eq__` delegates to `hmac.compare_digest`, which CPython
implements by the `_tscmp` loop: when the operands have equal length the
accumulator starts at `0` and the left operand is `a`; otherwise the
accumulator starts at `1` and `b` is scanned against itself.  In both
cases the loop performs exactly `len(b)` byte steps, OR-ing the XOR of the
byte pair into the accumulator, and the result is whether the accumulator
ended at zero.  We return the boolean outcome together with the number of
byte steps performed, which is the timing-relevant observable. -/

/-- One pass of the `_tscmp` accumulator over a list of byte pairs. -/
def tsAcc (l : List (Nat × Nat)) (acc : Nat) : Nat :=
  l.foldl (fun a p => a ||| (p.1 ^^^ p.2)) acc

/-- CPython's `_tscmp` loop on two byte strings: boolean outcome paired
with the number of byte steps executed. -/
def tscmp (a b : List Nat) : Bool × Nat :=
  if a.length = b.length then
    (tsAcc (a.zip b) 0 == 0, b.length)
  else
    (tsAcc (b.zip b) 1 == 0, b.length)

/-- `hmac.compare_digest` as called from `HasData.__eq__`: the left
operand is always the container's payload (bytes); a right operand that is
not a byte string raises `TypeError`. -/
def compare_digest (a : List Nat) (b : PyVal) : Except PyError (Bool × Nat) :=
  match b with
  | .bytes bb => .ok (tscmp a bb)
  | _ => .error (.typeError "unsupported operand types")

/-! ## `HasData` -/

/-- State of a `HasData` container.  `shashObj` / `whashObj` model the
cached hash handler objects `_shash` / `_whash` (a handler is characterised
by the byte string that has been fed to it; `none` is Python `None`), the
dirty booleans model `_shash_dirty` / `_whash_dirty`, and `data` models
`_data`. -/
structure HasData where
  shashObj : Option (List Nat)
  whashObj : Option (List Nat)
  shashDirty : Bool
  whashDirty : Bool
  data : List Nat
  deriving DecidableEq, Repr

namespace HasData

/-- `HasData._data_set`: store the given data, raising `TypeError` (before
any assignment, hence leaving the state untouched) when it is not a bytes
object. -/
def dataSet (st : HasData) (v : PyVal) : HasData × Option PyError :=
  match v with
  | .bytes b => ({ st with data := b }, none)
  | _ => (st, some (.typeError "expected bytes"))

/-- `HasData.__init__`: both hash handlers start as `None`, both dirty
flags `False`, then `_data_set(data)` runs; a `TypeError` there propagates
out of the constructor, so no object is produced.  (`_data` is assigned
`None` just before `_data_set`; that placeholder is unobservable because
construction either overwrites it or raises, so the model starts it at the
empty byte string.) -/
def init (v : PyVal) : Except PyError HasData :=
  match dataSet { shashObj := none, whashObj := none, shashDirty := false,
                  whashDirty := false, data := [] } v with
  | (st, none) => .ok st
  | (_, some e) => .error e

/-- The `data` property setter: `_data_set(data)` (whose `TypeError`
aborts before the flags line), then both dirty flags are set. -/
def setData (st : HasData) (v : PyVal) : HasData × Option PyError :=
  match dataSet st v with
  | (st', none) => ({ st' with shashDirty := true, whashDirty := true }, none)
  | (st', some e) => (st', some e)

/-- The `shash` property read, parameterised by the finalisation `sHex` of
the strong hash algorithm (blake2b at the fixed digest size and person
seed).  When the dirty flag is set or no handler is cached, a fresh
handler is created, fed the current data, and the flag cleared; the
hexadecimal digest of the (now surely cached) handler is returned.  The
returned `Nat` counts how many digest computations (`_data_hash` runs)
the read performed. -/
def shash (sHex : List Nat → String) (st : HasData) : String × HasData × Nat :=
  match st.shashDirty, st.shashObj with
  | false, some fed => (sHex fed, st, 0)
  | _, _ =>
      (sHex st.data, { st with shashObj := some st.data, shashDirty := false }, 1)

/-- The `whash` property read, parameterised by the finalisation `wHex` of
the weak hash algorithm (xxh64 at the fixed seed); same protocol as
`shash` on the weak-hash fields. -/
def whash (wHex : List Nat → String) (st : HasData) : String × HasData × Nat :=
  match st.whashDirty, st.whashObj with
  | false, some fed => (wHex fed, st, 0)
  | _, _ =>
      (wHex st.data, { st with whashObj := some st.data, whashDirty := false }, 1)

/-- `HasData.__eq__`: `other.data` is available exactly when the operand
is another container (`Sum.inl`); the `AttributeError` fallback passes a
raw operand (`Sum.inr`) to `hmac.compare_digest` directly. -/
def eq (st : HasData) (other : HasData ⊕ PyVal) : Except PyError (Bool × Nat) :=
  match other with
  | .inl o => compare_digest st.data (.bytes o.data)
  | .inr v => compare_digest st.data v

/-- `HasData.__len__`: length of the stored data. -/
def lenD (st : HasData) : Nat :=
  st.data.length

end HasData

/-! ## `HasMetadata`

The `_metadata` Python `dict` is modelled as an insertion-ordered
association list with unique keys: assigning an existing key updates its
value in place, assigning a fresh key appends. -/

/-- `d[k] = v` on an insertion-ordered dictionary. -/
def dictSet (l : List (String × String)) (k v : String) : List (String × String) :=
  match l with
  | [] => [(k, v)]
  | (k', v') :: t => if k' = k then (k, v) :: t else (k', v') :: dictSet t k v

/-- `d[k]` lookup on an insertion-ordered dictionary. -/
def dictGet (l : List (String × String)) (k : String) : Option String :=
  match l with
  | [] => none
  | (k', v') :: t => if k' = k then some v' else dictGet t k

/-- `del d[k]` on an insertion-ordered dictionary (first matching key). -/
def dictDel (l : List (String × String)) (k : String) : List (String × String) :=
  match l with
  | [] => []
  | (k', v') :: t => if k' = k then t else (k', v') :: dictDel t k

/-- State of a `HasMetadata` container: the `_metadata` dictionary. -/
structure HasMetadata where
  metadata : List (String × String)
  deriving DecidableEq, Repr

namespace HasMetadata

/-- `HasMetadata._key_try`: return the key when it is a string, raise
`TypeError` otherwise. -/
def keyTry (key : PyVal) : Except PyError String :=
  match key with
  | .str s => .ok s
  | _ => .error (.typeError "expected str")

/-- `HasMetadata.__init__`: `_metadata` starts empty; `args[0]` is probed
under `suppress(IndexError)`, so an empty positional tuple leaves the map
empty with every keyword argument ignored; a `None` first positional also
skips the update.  Otherwise `self.update(*args, **kwargs)` runs: a dict
argument's entries are applied in order, then the keyword entries
(`MutableMapping.update` takes at most one positional and iterates the
mapping before `kwds`).  The remaining positional shapes raise inside
`update`; no claim exercises them and they are modelled coarsely as a
`TypeError`. -/
def init (args : List PyVal) (kwargs : List (String × String)) :
    HasMetadata × Option PyError :=
  match args with
  | [] => (⟨[]⟩, none)
  | .pynone :: _ => (⟨[]⟩, none)
  | .dict d :: [] =>
      (⟨kwargs.foldl (fun l kv => dictSet l kv.1 kv.2)
          (d.foldl (fun l kv => dictSet l kv.1 kv.2) [])⟩, none)
  | _ => (⟨[]⟩, some (.typeError "update argument is not a mapping"))

/-- `HasMetadata.__contains__`: membership of `_key_try(key)`. -/
def containsKey (m : HasMetadata) (key : PyVal) : Except PyError Bool :=
  match keyTry key with
  | .ok k => .ok ((dictGet m.metadata k).isSome)
  | .error e => .error e

/-- `HasMetadata.__getitem__`: `_metadata[_key_try(key)]`, raising
`KeyError` when the key is absent. -/
def getItem (m : HasMetadata) (key : PyVal) : Except PyError String :=
  match keyTry key with
  | .ok k =>
      match dictGet m.metadata k with
      | some v => .ok v
      | none => .error (.keyError k)
  | .error e => .error e

/-- `HasMetadata.__setitem__`: a non-string value raises `ValueError`
first; then `_key_try(key)` may raise `TypeError`; both raises happen
before the assignment, leaving the map unchanged. -/
def setItem (m : HasMetadata) (key value : PyVal) : HasMetadata × Option PyError :=
  match value with
  | .str vs =>
      match keyTry key with
      | .ok k => (⟨dictSet m.metadata k vs⟩, none)
      | .error e => (m, some e)
  | _ => (m, some (.valueError "expected str"))

/-- `HasMetadata.__delitem__`: `del _metadata[_key_try(key)]`, raising
`KeyError` when the key is absent and `TypeError` on a non-string key,
in both cases before any mutation. -/
def delItem (m : HasMetadata) (key : PyVal) : HasMetadata × Option PyError :=
  match keyTry key with
  | .ok k =>
      match dictGet m.metadata k with
      | some _ => (⟨dictDel m.metadata k⟩, none)
      | none => (m, some (.keyError k))
  | .error e => (m, some e)

/-- `HasMetadata.__len__`. -/
def lenM (m : HasMetadata) : Nat :=
  m.metadata.length

/-- The Python builtin `hash` applied to the raw `_metadata` dictionary,
as `HasMetadata.__hash__` does: a `dict` defines no `__hash__`, so the
builtin raises `TypeError` whatever the dictionary contains. -/
def pyHashOfDict (_d : List (String × String)) : Except PyError Int :=
  .error (.typeError "unhashable type")

/-- `HasMetadata.__hash__`: `hash(self._metadata)`. -/
def hashM (m : HasMetadata) : Except PyError Int :=
  pyHashOfDict m.metadata

end HasMetadata

/-! ## Helper lemmas -/

/-- A bitwise OR of naturals is zero exactly when both operands are. -/
theorem or_eq_zero_iff (a b : Nat) : a ||| b = 0 ↔ a = 0 ∧ b = 0 := by
  constructor
  · intro h
    refine ⟨Nat.zero_of_testBit_eq_false fun i => ?_,
            Nat.zero_of_testBit_eq_false fun i => ?_⟩ <;>
    · have hi := congrArg (fun x => Nat.testBit x i) h
      simp [Nat.testBit_or] at hi
      simp [hi]
  · rintro ⟨rfl, rfl⟩; rfl

/-- The `_tscmp` accumulator ends at zero exactly when it started at zero
and every scanned byte pair is equal. -/
theorem tsAcc_eq_zero (l : List (Nat × Nat)) (acc : Nat) :
    tsAcc l acc = 0 ↔ acc = 0 ∧ ∀ p ∈ l, p.1 = p.2 := by
  induction l generalizing acc with
  | nil => simp [tsAcc]
  | cons hd tl ih =>
    show tsAcc tl (acc ||| (hd.1 ^^^ hd.2)) = 0 ↔ _
    rw [ih, or_eq_zero_iff, Nat.xor_eq_zero]
    constructor
    · rintro ⟨⟨h1, h2⟩, h3⟩
      exact ⟨h1, by simpa [h2] using h3⟩
    · rintro ⟨h1, h2⟩
      exact ⟨⟨h1, h2 hd (by simp)⟩, fun p hp => h2 p (by simp [hp])⟩

/-- Two equal-length byte strings are equal exactly when every zipped
pair of bytes is. -/
theorem zip_forall_eq :
    ∀ (a b : List Nat), a.length = b.length →
      ((∀ p ∈ a.zip b, p.1 = p.2) ↔ a = b)
  | [], [], _ => by simp
  | [], _ :: _, h => by simp at h
  | _ :: _, [], h => by simp at h
  | x :: xs, y :: ys, h => by
      have ih := zip_forall_eq xs ys (by simpa using h)
      simp only [List.zip_cons_cons, List.mem_cons, List.cons.injEq]
      constructor
      · intro hall
        exact ⟨hall (x, y) (Or.inl rfl), ih.mp fun p hp => hall p (Or.inr hp)⟩
      · rintro ⟨rfl, rfl⟩
        intro p hp
        rcases hp with rfl | hp
        · rfl
        · exact ih.mpr rfl p hp

/-- `_tscmp` decides byte-string equality and always performs exactly
`len(b)` byte steps. -/
theorem tscmp_eq (a b : List Nat) : tscmp a b = (decide (a = b), b.length) := by
  unfold tscmp
  by_cases h : a.length = b.length
  · simp only [h, if_pos rfl]
    have hz := tsAcc_eq_zero (a.zip b) 0
    have hiff : tsAcc (a.zip b) 0 = 0 ↔ a = b := by
      rw [hz]
      constructor
      · rintro ⟨-, h2⟩
        exact (zip_forall_eq a b h).mp h2
      · intro hab
        exact ⟨rfl, (zip_forall_eq a b h).mpr hab⟩
    rcases Decidable.em (a = b) with hab | hab
    · subst hab
      have h0 : tsAcc (a.zip a) 0 = 0 := hiff.mpr rfl
      simp [h0]
    · have h0 : tsAcc (a.zip b) 0 ≠ 0 := fun hc => hab (hiff.mp hc)
      simp [h0, hab]
  · have hne : a ≠ b := fun hc => h (by rw [hc])
    have : tsAcc (b.zip b) 1 ≠ 0 := fun hc => by
      have := (tsAcc_eq_zero (b.zip b) 1).mp hc
      exact absurd this.1 one_ne_zero
    simp [h, this, hne]

/-- Looking a key up right after setting it yields the written value. -/
theorem dictGet_dictSet_self (l : List (String × String)) (k v : String) :
    dictGet (dictSet l k v) k = some v := by
  induction l with
  | nil => simp [dictSet, dictGet]
  | cons hd tl ih =>
    by_cases h : hd.1 = k
    · simp [dictSet, dictGet, h]
    · simp [dictSet, dictGet, h, ih]

/-! ## The specified properties -/

/-- Claim C1: from any container state holding payload `p1` (whatever the
digest-cache states left by prior reads), replacing the payload with
`p2 ≠ p1` through the data setter succeeds, and reading either the strong
or the weak digest afterwards returns the digest of `p2`, never a cached
digest of `p1`. -/
theorem data_replace_fresh_digests
    (sHex wHex : List Nat → String) (p1 p2 : List Nat) (_hne : p1 ≠ p2)
    (st : HasData) (_hd : st.data = p1) :
    (st.setData (.bytes p2)).2 = none ∧
    ((st.setData (.bytes p2)).1.shash sHex).1 = sHex p2 ∧
    ((st.setData (.bytes p2)).1.whash wHex).1 = wHex p2 := by
  rcases st with ⟨so, wo, sd, wd, d⟩
  refine ⟨rfl, ?_, ?_⟩ <;>
    simp [HasData.setData, HasData.dataSet, HasData.shash, HasData.whash]

/-- Concrete instance of `data_replace_fresh_digests`. -/
theorem data_replace_fresh_digests_witness :
    (((⟨some [0], some [0], false, false, [0]⟩ : HasData).setData
        (.bytes [1])).1.shash (fun l => toString l)).1 = toString [1] :=
  (data_replace_fresh_digests (fun l => toString l) (fun l => toString l)
    [0] [1] (by decide) ⟨some [0], some [0], false, false, [0]⟩ rfl).2.1

/-- Claim C2: container equality returns `true` exactly when the payload
byte strings are equal — against another container and against raw bytes —
and its outcome is the same for any two containers holding the same
payloads, whatever their digest caches and dirty flags hold. -/
theorem eq_iff_payload_eq (st o : HasData) (bs : List Nat) :
    st.eq (.inl o) = .ok (decide (st.data = o.data), o.data.length) ∧
    st.eq (.inr (.bytes bs)) = .ok (decide (st.data = bs), bs.length) ∧
    (∀ st2 o2 : HasData, st2.data = st.data → o2.data = o.data →
        st2.eq (.inl o2) = st.eq (.inl o)) := by
  refine ⟨?_, ?_, ?_⟩
  · simp [HasData.eq, compare_digest, tscmp_eq]
  · simp [HasData.eq, compare_digest, tscmp_eq]
  · intro st2 o2 h2 ho2
    simp [HasData.eq, compare_digest, tscmp_eq, h2, ho2]

/-- Concrete instance of `eq_iff_payload_eq`: a never-read container and a
fully cached, dirty-flagged container with equal payloads compare equal. -/
theorem eq_iff_payload_eq_witness :
    (⟨none, none, false, false, [7, 8]⟩ : HasData).eq
      (.inl ⟨some [9], some [], true, true, [7, 8]⟩) = .ok (true, 2) := by
  have h := eq_iff_payload_eq ⟨none, none, false, false, [7, 8]⟩
    ⟨some [9], some [], true, true, [7, 8]⟩ []
  simpa using h.1

/-- Claim C3: the equality operation's byte-step count (the
timing-relevant observable of the `_tscmp` loop inside
`hmac.compare_digest`) is exactly the length of the right operand, so for
equal-length operands it is identical whatever the byte contents are — in
particular it does not depend on where the first mismatching byte
occurs. -/
theorem eq_constant_time (st o o' : HasData) (v : List Nat)
    (hlen : o.data.length = o'.data.length) :
    (st.eq (.inl o)).map Prod.snd = .ok o.data.length ∧
    (st.eq (.inr (.bytes v))).map Prod.snd = .ok v.length ∧
    (st.eq (.inl o)).map Prod.snd = (st.eq (.inl o')).map Prod.snd := by
  refine ⟨?_, ?_, ?_⟩ <;>
    simp [HasData.eq, compare_digest, tscmp_eq, Except.map, hlen]

/-- Concrete instance of `eq_constant_time`: comparing `[0, 0]` against
operands mismatching at the first and at the last byte costs the same two
byte steps. -/
theorem eq_constant_time_witness :
    ((⟨none, none, false, false, [0, 0]⟩ : HasData).eq
        (.inl ⟨none, none, false, false, [1, 0]⟩)).map Prod.snd =
      ((⟨none, none, false, false, [0, 0]⟩ : HasData).eq
        (.inl ⟨none, none, false, false, [0, 1]⟩)).map Prod.snd :=
  (eq_constant_time ⟨none, none, false, false, [0, 0]⟩
    ⟨none, none, false, false, [1, 0]⟩ ⟨none, none, false, false, [0, 1]⟩
    [] (by decide)).2.2

/-- Claim C4: no digest is computed at construction (both hash handlers
are still unset) nor at payload replacement (the setter leaves both
handlers untouched); the first read of a digest after construction or
after a replacement performs exactly one digest computation and returns
the digest of the current payload, and a further read of the same digest
without an intervening replacement performs zero computations and returns
the same hexadecimal string. -/
theorem lazy_digest_single_computation
    (sHex wHex : List Nat → String) (p p2 : List Nat) (st0 : HasData)
    (hinit : HasData.init (.bytes p) = .ok st0) :
    st0.shashObj = none ∧ st0.whashObj = none ∧
    (st0.shash sHex).2.2 = 1 ∧ (st0.shash sHex).1 = sHex p ∧
    (((st0.shash sHex).2.1).shash sHex).2.2 = 0 ∧
    (((st0.shash sHex).2.1).shash sHex).1 = (st0.shash sHex).1 ∧
    (st0.whash wHex).2.2 = 1 ∧ (st0.whash wHex).1 = wHex p ∧
    (((st0.whash wHex).2.1).whash wHex).2.2 = 0 ∧
    (((st0.whash wHex).2.1).whash wHex).1 = (st0.whash wHex).1 ∧
    (∀ st : HasData,
        ((st.setData (.bytes p2)).1).shashObj = st.shashObj ∧
        ((st.setData (.bytes p2)).1).whashObj = st.whashObj) ∧
    (∀ st : HasData,
        (((st.setData (.bytes p2)).1).shash sHex).2.2 = 1 ∧
        (((st.setData (.bytes p2)).1).shash sHex).1 = sHex p2 ∧
        ((((st.setData (.bytes p2)).1.shash sHex).2.1).shash sHex).2.2 = 0 ∧
        ((((st.setData (.bytes p2)).1.shash sHex).2.1).shash sHex).1 =
          (((st.setData (.bytes p2)).1).shash sHex).1 ∧
        (((st.setData (.bytes p2)).1).whash wHex).2.2 = 1 ∧
        (((st.setData (.bytes p2)).1).whash wHex).1 = wHex p2 ∧
        ((((st.setData (.bytes p2)).1.whash wHex).2.1).whash wHex).2.2 = 0 ∧
        ((((st.setData (.bytes p2)).1.whash wHex).2.1).whash wHex).1 =
          (((st.setData (.bytes p2)).1).whash wHex).1) := by
  have hred : HasData.init (.bytes p) =
      .ok ⟨none, none, false, false, p⟩ := rfl
  rw [hred] at hinit
  injection hinit with h0
  subst h0
  exact ⟨rfl, rfl, rfl, rfl, rfl, rfl, rfl, rfl, rfl, rfl,
    fun st => ⟨rfl, rfl⟩,
    fun st => ⟨rfl, rfl, rfl, rfl, rfl, rfl, rfl, rfl⟩⟩

/-- Concrete instance of `lazy_digest_single_computation`: the first
strong-digest read after constructing from `[2]` performs one
computation. -/
theorem lazy_digest_single_computation_witness :
    ((⟨none, none, false, false, [2]⟩ : HasData).shash
        (fun l => toString l)).2.2 = 1 :=
  (lazy_digest_single_computation (fun l => toString l) (fun l => toString l)
    [2] [3] ⟨none, none, false, false, [2]⟩ rfl).2.2.1

/-- Claim C5: the two digest caches are independent — a strong-digest read
leaves the weak cache, weak dirty flag and payload untouched, and a
weak-digest read leaves the strong cache, strong dirty flag and payload
untouched, from every container state. -/
theorem digest_caches_independent
    (sHex wHex : List Nat → String) (st : HasData) :
    ((st.shash sHex).2.1).whashObj = st.whashObj ∧
    ((st.shash sHex).2.1).whashDirty = st.whashDirty ∧
    ((st.shash sHex).2.1).data = st.data ∧
    ((st.whash wHex).2.1).shashObj = st.shashObj ∧
    ((st.whash wHex).2.1).shashDirty = st.shashDirty ∧
    ((st.whash wHex).2.1).data = st.data := by
  rcases st with ⟨so, wo, sd, wd, d⟩
  cases sd <;> cases wd <;> cases so <;> cases wo <;>
    simp [HasData.shash, HasData.whash]

/-- Claim C6: replacing the payload with a value that is not a bytes
object raises `TypeError` and returns the container state completely
unchanged — payload, both digest caches and both dirty flags included. -/
theorem setData_type_error_unchanged (st : HasData) (v : PyVal)
    (h : ∀ b, v ≠ PyVal.bytes b) :
    st.setData v = (st, some (PyError.typeError "expected bytes")) := by
  cases v with
  | bytes b => exact absurd rfl (h b)
  | int _ => rfl
  | str _ => rfl
  | pynone => rfl
  | dict _ => rfl

/-- Concrete instance of `setData_type_error_unchanged`. -/
theorem setData_type_error_unchanged_witness :
    (⟨some [1], none, true, false, [5]⟩ : HasData).setData (.int 0) =
      (⟨some [1], none, true, false, [5]⟩,
        some (PyError.typeError "expected bytes")) :=
  setData_type_error_unchanged ⟨some [1], none, true, false, [5]⟩ (.int 0)
    (by intro b; simp)

/-- Claim C7: comparing a container with an operand that exposes no byte
payload and is not a byte string (an integer, `None`, a dictionary, or a
text string, which `compare_digest` refuses against bytes) raises
`TypeError` instead of returning `false`. -/
theorem eq_non_bytes_type_error (st : HasData) (v : PyVal)
    (h : ∀ b, v ≠ PyVal.bytes b) :
    st.eq (.inr v) =
      .error (PyError.typeError "unsupported operand types") := by
  cases v with
  | bytes b => exact absurd rfl (h b)
  | int _ => rfl
  | str _ => rfl
  | pynone => rfl
  | dict _ => rfl

/-- Concrete instance of `eq_non_bytes_type_error`:
`container(b"abc") == 123` raises `TypeError`. -/
theorem eq_non_bytes_type_error_witness :
    (⟨none, none, false, false, [97, 98, 99]⟩ : HasData).eq (.inr (.int 123)) =
      .error (PyError.typeError "unsupported operand types") :=
  eq_non_bytes_type_error ⟨none, none, false, false, [97, 98, 99]⟩ (.int 123)
    (by intro b; simp)

/-- Claim C8, counterexample: a write whose key AND value are both
non-strings raises the value violation, not the type violation the claim
promises for every non-string-key write — `__setitem__` checks the value
before it calls `_key_try`. -/
theorem metadata_nonstring_key_write_cex :
    (HasMetadata.setItem ⟨[]⟩ (.int 1) (.int 2)).2.map PyError.isValueError
        = some true ∧
    (HasMetadata.setItem ⟨[]⟩ (.int 1) (.int 2)).2.map PyError.isTypeError
        = some false :=
  ⟨rfl, rfl⟩

/-- Claim C8, amended: setting an entry whose value is not a string raises
a value violation and leaves the map unchanged, whatever the key is (the
value check runs first); a lookup, containment check or deletion with a
non-string key, and a write with a non-string key and a string value,
raise a type violation and leave the map unchanged; setting a string key
to a string value succeeds and reading that key back returns that
value. -/
theorem metadata_typed_map_ops (m : HasMetadata) (ks vs : String)
    (k v : PyVal) (hv : ∀ s, v ≠ PyVal.str s) (hk : ∀ s, k ≠ PyVal.str s) :
    (∀ key : PyVal,
        m.setItem key v = (m, some (PyError.valueError "expected str"))) ∧
    m.getItem k = .error (PyError.typeError "expected str") ∧
    m.containsKey k = .error (PyError.typeError "expected str") ∧
    m.delItem k = (m, some (PyError.typeError "expected str")) ∧
    m.setItem k (.str vs) = (m, some (PyError.typeError "expected str")) ∧
    (m.setItem (.str ks) (.str vs)).2 = none ∧
    (m.setItem (.str ks) (.str vs)).1.getItem (.str ks) = .ok vs := by
  refine ⟨?_, ?_, ?_, ?_, ?_, rfl, ?_⟩
  · intro key
    cases v <;> first | rfl | exact absurd rfl (hv _)
  · cases k <;> first | rfl | exact absurd rfl (hk _)
  · cases k <;> first | rfl | exact absurd rfl (hk _)
  · cases k <;> first | rfl | exact absurd rfl (hk _)
  · cases k <;> first | rfl | exact absurd rfl (hk _)
  · show HasMetadata.getItem ⟨dictSet m.metadata ks vs⟩ (.str ks) = .ok vs
    simp [HasMetadata.getItem, HasMetadata.keyTry, dictGet_dictSet_self]

/-- Concrete instance of `metadata_typed_map_ops`: set `"k" ↦ "v"` on the
empty map, read it back. -/
theorem metadata_typed_map_ops_witness :
    ((⟨[]⟩ : HasMetadata).setItem (.str "k") (.str "v")).1.getItem
        (.str "k") = .ok "v" :=
  (metadata_typed_map_ops ⟨[]⟩ "k" "v" (.int 1) (.bytes [])
    (by intro s; simp) (by intro s; simp)).2.2.2.2.2.2

/-- Claim C9: taking the hash of a metadata container always raises
`TypeError`, in every state, because `__hash__` hands the raw mutable
`dict` to the `hash` builtin; the container can never serve as a key of a
hash-based collection. -/
theorem metadata_hash_type_error (m : HasMetadata) :
    m.hashM = .error (PyError.typeError "unhashable type") :=
  rfl

/-- Claim C10: constructing a metadata container from keyword arguments
alone — no positional argument — silently drops every keyword entry and
yields the empty map, since the `update` call sits behind an `args[0]`
probe whose `IndexError` is suppressed. -/
theorem metadata_kwargs_only_ignored (kwargs : List (String × String)) :
    HasMetadata.init [] kwargs = (⟨[]⟩, none) :=
  rfl

end Kado
